import Mathlib

/-!
# Verification of the treasury planner / executor

Shallow embedding of the treasury planning and execution code of the
repository (the `treasuryManager` section of
`src/app/lib/services/geminiService.ts`,
`src/app/lib/services/paymentPlanner.ts`, and the execution API route
`src/app/api/treasury/execute/route.ts`), with theorems settling the
claims about it.

Modelling conventions, used throughout:

* Decimal strings that denote amounts (balances returned by the custody
  service, the captured invoice numeral, `formatUnits` and `toFixed`
  output) are modelled by the exact rational value they denote.  Rendering
  a number back to a decimal string is an output boundary and is not
  modelled.
* JavaScript `number` arithmetic (`parseFloat`, `+`, `-`, comparisons) is
  IEEE-754 binary64.  It is modelled exactly: a double is represented by
  its exact rational value, and `rd` below rounds an arbitrary rational to
  the nearest representable double (round-to-nearest, ties-to-even, 53-bit
  significand, unbounded exponent range: overflow and subnormal behaviour
  are not modelled, which is sound for every magnitude these claims touch).
* Rationals are represented by unnormalised numerator/denominator pairs
  (`PRat`), so that every operation is plain integer arithmetic; `toRat`
  maps a pair to the rational it denotes.  All pairs built by the model
  from decimal data keep a positive denominator.
* JavaScript `BigInt` arithmetic is exact integer arithmetic; `BigInt`
  division truncates (on the non-negative operands appearing here, floor).
* Network effects (balance reads, the Uniswap quoter, transaction
  submission, bridge runs, transaction state polling) are inputs: an
  environment record supplies their results.
-/

/-! ## Unnormalised rationals -/

/-- An unnormalised rational: `num / den`.  Every value the model builds
keeps `den` positive, so order comparisons are by cross multiplication. -/
structure PRat where
  num : ℤ
  den : ℤ
  deriving DecidableEq, Repr

namespace PRat

/-- The rational value a pair denotes. -/
def toRat (q : PRat) : ℚ := (q.num : ℚ) / (q.den : ℚ)

/-- Exact sum. -/
def padd (a b : PRat) : PRat := ⟨a.num * b.den + b.num * a.den, a.den * b.den⟩

/-- Exact difference. -/
def psub (a b : PRat) : PRat := ⟨a.num * b.den - b.num * a.den, a.den * b.den⟩

/-- Negation. -/
def pneg (a : PRat) : PRat := ⟨-a.num, a.den⟩

/-- Order comparison by cross multiplication (valid for positive
denominators). -/
def plt (a b : PRat) : Prop := a.num * b.den < b.num * a.den

/-- Weak order comparison by cross multiplication (valid for positive
denominators). -/
def ple (a b : PRat) : Prop := a.num * b.den ≤ b.num * a.den

instance (a b : PRat) : Decidable (plt a b) := by unfold plt; infer_instance

instance (a b : PRat) : Decidable (ple a b) := by unfold ple; infer_instance

/-- Floor of the denoted rational (valid for positive denominators). -/
def pfloor (a : PRat) : ℤ := Int.fdiv a.num a.den

end PRat

/-! ## Binary64 model -/

/-- Round a scaled significand to an integer, round-to-nearest with ties to
even — the IEEE-754 default rounding (valid for positive denominators). -/
def roundTE (z : PRat) : ℤ :=
  let fl := z.pfloor
  let r := z.num - fl * z.den
  if 2 * r < z.den then fl
  else if z.den < 2 * r then fl + 1
  else if fl % 2 = 0 then fl else fl + 1

/-- Scale a positive rational `q` by a power of two into the binade
`[2^52, 2^53)`.  Returns the scaled value and the accumulated power-of-two
scale factor `s`, with `fst = q * snd`.  Fuel-bounded so the definition is
structural; 1100 steps of fuel cover every magnitude the program can reach
from decimal data, well inside the binary64 normal range. -/
def scaleToBinade : ℕ → PRat → PRat → PRat × PRat
  | 0, q, s => (q, s)
  | fuel+1, q, s =>
    if q.num < 4503599627370496 * q.den then
      scaleToBinade fuel ⟨2 * q.num, q.den⟩ ⟨2 * s.num, s.den⟩
    else if 9007199254740992 * q.den ≤ q.num then
      scaleToBinade fuel ⟨q.num, 2 * q.den⟩ ⟨s.num, 2 * s.den⟩
    else (q, s)

/-- Nearest binary64 value of a positive rational: round the 53-bit scaled
significand to an integer (ties to even) and scale back. -/
def rdPos (q : PRat) : PRat :=
  let p := scaleToBinade 1100 q ⟨1, 1⟩
  ⟨roundTE p.1 * p.2.den, p.2.num⟩

/-- The binary64 double nearest to the rational `q` (round-to-nearest,
ties-to-even).  This is the value model of JavaScript `parseFloat` applied
to a decimal string denoting `q`, and the rounding step of every JavaScript
floating-point arithmetic operation. -/
def rd (q : PRat) : PRat :=
  if q.num = 0 then ⟨0, 1⟩
  else if q.num < 0 then PRat.pneg (rdPos (PRat.pneg q))
  else rdPos q

/-- JavaScript `a + b` on doubles: exact sum, rounded. -/
def fadd (a b : PRat) : PRat := rd (a.padd b)

/-- JavaScript `a - b` on doubles: exact difference, rounded. -/
def fsub (a b : PRat) : PRat := rd (a.psub b)

/-- Model of `parseUnits(x.toFixed(6), 6)`: the base-unit (6-decimal)
integer nearest to `x`, ties toward positive infinity (ECMA-262 `toFixed`
picks the larger candidate on a tie). -/
def toFixedUnits (q : PRat) : ℤ := PRat.pfloor ⟨2 * q.num * 1000000 + q.den, 2 * q.den⟩

/-- The exact rational denoted by the decimal string `x.toFixed(6)`. -/
def toFixedVal (q : PRat) : PRat := ⟨toFixedUnits q, 1000000⟩

/-! ## Data model of the treasury planner

Mirrors the types of `treasuryManager` (`ExecutionStep`, `TreasuryPlan`) and
its configuration constants.  The human-readable `description` and `name`
interpolations are display-only output boundaries; `description` is elided
and step names are kept literally.  The `reason` strings interpolate
computed amounts, so they are modelled structurally by `PlanReason`: each
constructor stands for one of the three literal template strings of the
source (all of them non-empty), carrying the interpolated values. -/

/-- Status of an execution step (`'pending' | 'running' | 'success' |
'failed' | 'skipped'`). -/
inductive StepStatus
  | pending | running | success | failed | skipped
  deriving DecidableEq, Repr

/-- An execution step record (the `description` display string is elided). -/
structure ExecutionStep where
  id : String
  name : String
  status : StepStatus
  txHash : Option String := none
  error : Option String := none
  deriving DecidableEq, Repr

/-- The two supported invoice currencies.  `parseInvoiceCurrency` returns
`null` for anything else. -/
inductive Currency
  | USDC | EURC
  deriving DecidableEq, Repr

/-- The symbol string of a supported currency. -/
def Currency.symbol : Currency → String
  | .USDC => "USDC"
  | .EURC => "EURC"

/-- Structural model of the `reason` strings of `buildTreasuryPlan`; each
constructor is one of the three (non-empty) template literals of the
source, carrying the values it interpolates. -/
inductive PlanReason
  | unsupportedCurrency
  | insufficientEURC (haveAmt needAmt : PRat)
  | insufficientEthForSwap (needEth haveEth : PRat)
  deriving DecidableEq, Repr

/-- The `TreasuryPlan` record.  Amount-bearing string fields are modelled by
the value of the double the stored string denotes under `parseFloat` (for
strings the code produces with `toString`, `formatUnits` or `toFixed`, the
stored decimal string round-trips to exactly this double).  `invoiceAmount`
is `none` on the unsupported-currency branch, where the code stores the raw
(non-numeric) invoice text. -/
structure TreasuryPlan where
  invoiceAmount : Option PRat
  invoiceCurrency : String
  recipientAddress : String
  arcBalance : PRat
  arcSufficient : Bool
  deficit : PRat
  sepoliaEthBalance : PRat
  sepoliaUsdcBalance : PRat
  swapNeeded : Bool
  swapQuoteEth : Option PRat
  bridgeNeeded : Bool
  bridgeAmount : Option PRat
  steps : List ExecutionStep
  canExecute : Bool
  reason : Option PlanReason := none
  deriving DecidableEq, Repr

/-- One entry of a `getWalletTokenBalances` response: the token symbol (or
name) string and the decimal balance string, by its denoted value. -/
structure TokenBalance where
  symbol : String
  amount : PRat
  deriving DecidableEq, Repr

/-- The invoice data reaching the planner.  `amountParsed` is the capture of
the regex `([0-9]+(?:\.[0-9]+)?)\s*([A-Za-z]+)` on the comma-stripped
`amount` text: the numeric literal (by its denoted value, a nonnegative
decimal) and the currency token, or `none` when the regex does not match.
The unparsed raw text only ever flows to display fields and is elided. -/
structure InvoiceData where
  walletAddress : String
  amountParsed : Option (PRat × String)

/-- External inputs consumed by `buildTreasuryPlan`: the two wallets'
token-balance lists, the Sepolia ETH balance in wei, and the Uniswap v4
quoter (required input in wei, as a function of the requested exact output
in USDC base units). -/
structure PlanEnv where
  arcBalances : List TokenBalance
  sepoliaBalances : List TokenBalance
  ethBalanceWei : ℕ
  quoter : ℤ → ℕ

/-- `SLIPPAGE_BPS = 500` (5%). -/
def SLIPPAGE_BPS : ℕ := 500

/-- The slippage-buffered input bound applied to a quoted required input,
shared by `buildTreasuryPlan`, `executeTreasuryPlan` and `buildPaymentPlan`:
`(amountIn * BigInt(10000 + slippageBps)) / BigInt(10000)` — exact integer
arithmetic with truncating division. -/
def maxAmountInCalc (amountIn slippageBps : ℕ) : ℕ :=
  amountIn * (10000 + slippageBps) / 10000

/-- `ARC_GAS_BUFFER = 0.01`: the JavaScript literal denotes the double
nearest to 1/100. -/
def ARC_GAS_BUFFER : PRat := rd ⟨1, 100⟩

/-- Boolean strict order on pair rationals (cross multiplication). -/
def PRat.blt (a b : PRat) : Bool := decide (a.plt b)

/-- Boolean weak order on pair rationals (cross multiplication). -/
def PRat.ble (a b : PRat) : Bool := decide (a.ple b)

/-- Model of JavaScript `toUpperCase` on the (ASCII) token and symbol
strings these functions receive: character-wise uppercase. -/
def jsToUpperCase (s : String) : String := ⟨s.data.map Char.toUpper⟩

/-- `parseInvoiceCurrency`: uppercase the captured currency token and accept
exactly USDC and EURC. -/
def parseInvoiceCurrency (invoiceData : InvoiceData) : Option (PRat × Currency) :=
  match invoiceData.amountParsed with
  | none => none
  | some (q, cur) =>
    let c := jsToUpperCase cur
    if c = "USDC" then some (q, Currency.USDC)
    else if c = "EURC" then some (q, Currency.EURC)
    else none

/-- `findTokenBalance`: first entry whose uppercased symbol matches, else
balance 0. -/
def findTokenBalance (balances : List TokenBalance) (symbol : String) : PRat :=
  match balances.find? (fun b => jsToUpperCase b.symbol == symbol) with
  | some b => b.amount
  | none => ⟨0, 1⟩

/-- The pending Transfer step pushed by the planner. -/
def transferStep : ExecutionStep :=
  { id := "transfer", name := "Transfer on Arc", status := .pending }

/-- The pending Swap step pushed by the planner. -/
def swapStep : ExecutionStep :=
  { id := "swap", name := "Swap ETH → USDC", status := .pending }

/-- The pending Bridge step pushed by the planner. -/
def bridgeStep : ExecutionStep :=
  { id := "bridge", name := "Bridge to Arc", status := .pending }

/-! ## buildTreasuryPlan -/

/-- The planner `buildTreasuryPlan`, translated branch for branch from the
source.  All amount arithmetic and comparisons follow the source exactly:
`parseFloat` values are binary64 (`rd`), `+` and `-` on them are double
operations (`fadd`, `fsub`), while the swap bound `maxAmountIn` is exact
`BigInt` arithmetic with truncating division and the ETH sufficiency check
compares wei integers. -/
def buildTreasuryPlan (invoiceData : InvoiceData) (env : PlanEnv) : TreasuryPlan :=
  match parseInvoiceCurrency invoiceData with
  | none =>
    { invoiceAmount := none
      invoiceCurrency := "UNKNOWN"
      recipientAddress := invoiceData.walletAddress
      arcBalance := ⟨0, 1⟩
      arcSufficient := false
      deficit := ⟨0, 1⟩
      sepoliaEthBalance := ⟨0, 1⟩
      sepoliaUsdcBalance := ⟨0, 1⟩
      swapNeeded := false
      swapQuoteEth := none
      bridgeNeeded := false
      bridgeAmount := none
      steps := []
      canExecute := false
      reason := some .unsupportedCurrency }
  | some (amount, currency) =>
    let invoiceAmountNum := rd amount
    let arcTokenBalance := findTokenBalance env.arcBalances currency.symbol
    let arcBalanceNum := rd arcTokenBalance
    let arcSufficient := PRat.ble (fadd invoiceAmountNum ARC_GAS_BUFFER) arcBalanceNum
    let deficit :=
      if arcSufficient then ⟨0, 1⟩
      else fsub (fadd invoiceAmountNum ARC_GAS_BUFFER) arcBalanceNum
    if arcSufficient then
      { invoiceAmount := some amount
        invoiceCurrency := currency.symbol
        recipientAddress := invoiceData.walletAddress
        arcBalance := arcTokenBalance
        arcSufficient := true
        deficit := ⟨0, 1⟩
        sepoliaEthBalance := ⟨0, 1⟩
        sepoliaUsdcBalance := ⟨0, 1⟩
        swapNeeded := false
        swapQuoteEth := none
        bridgeNeeded := false
        bridgeAmount := none
        steps := [transferStep]
        canExecute := true }
    else
      let sepoliaUsdcBalance := findTokenBalance env.sepoliaBalances "USDC"
      let sepoliaUsdcNum := rd sepoliaUsdcBalance
      match currency with
      | .EURC =>
        { invoiceAmount := some amount
          invoiceCurrency := "EURC"
          recipientAddress := invoiceData.walletAddress
          arcBalance := arcTokenBalance
          arcSufficient := false
          deficit := deficit
          sepoliaEthBalance := ⟨0, 1⟩
          sepoliaUsdcBalance := ⟨0, 1⟩
          swapNeeded := false
          swapQuoteEth := none
          bridgeNeeded := false
          bridgeAmount := none
          steps := []
          canExecute := false
          reason := some (.insufficientEURC arcTokenBalance amount) }
      | .USDC =>
        let needToSwap := fsub deficit sepoliaUsdcNum
        if PRat.blt ⟨0, 1⟩ needToSwap then
          let sepoliaEthBalance : PRat := ⟨(env.ethBalanceWei : ℤ), 1000000000000000000⟩
          let swapAmountUsdc := toFixedUnits needToSwap
          let amountIn := env.quoter swapAmountUsdc
          let maxAmountIn := maxAmountInCalc amountIn SLIPPAGE_BPS
          let swapQuoteEth : PRat := ⟨(maxAmountIn : ℤ), 1000000000000000000⟩
          if env.ethBalanceWei < maxAmountIn then
            { invoiceAmount := some amount
              invoiceCurrency := "USDC"
              recipientAddress := invoiceData.walletAddress
              arcBalance := arcTokenBalance
              arcSufficient := false
              deficit := deficit
              sepoliaEthBalance := sepoliaEthBalance
              sepoliaUsdcBalance := sepoliaUsdcBalance
              swapNeeded := true
              swapQuoteEth := some swapQuoteEth
              bridgeNeeded := true
              bridgeAmount := some (toFixedVal deficit)
              steps := []
              canExecute := false
              reason := some (.insufficientEthForSwap swapQuoteEth sepoliaEthBalance) }
          else
            { invoiceAmount := some amount
              invoiceCurrency := "USDC"
              recipientAddress := invoiceData.walletAddress
              arcBalance := arcTokenBalance
              arcSufficient := false
              deficit := deficit
              sepoliaEthBalance := sepoliaEthBalance
              sepoliaUsdcBalance := sepoliaUsdcBalance
              swapNeeded := true
              swapQuoteEth := some swapQuoteEth
              bridgeNeeded := true
              bridgeAmount := some (toFixedVal deficit)
              steps := [swapStep, bridgeStep, transferStep]
              canExecute := true }
        else
          { invoiceAmount := some amount
            invoiceCurrency := "USDC"
            recipientAddress := invoiceData.walletAddress
            arcBalance := arcTokenBalance
            arcSufficient := false
            deficit := deficit
            sepoliaEthBalance := ⟨0, 1⟩
            sepoliaUsdcBalance := sepoliaUsdcBalance
            swapNeeded := false
            swapQuoteEth := none
            bridgeNeeded := true
            bridgeAmount := some (toFixedVal deficit)
            steps := [bridgeStep, transferStep]
            canExecute := true }

/-! ## executeTreasuryPlan

The executor communicates progress exclusively through the `onStepUpdate`
callback; the model collects those calls, together with the submissions it
hands to the external services, as an ordered effect list.  The API route
(`src/app/api/treasury/execute/route.ts`) forwards each callback invocation
verbatim as a `step_update` server-sent event, and the browser client
applies it to its own mirror of the step list; neither ever writes back
into the executor's `plan` — `applyStepUpdate` below models that consumer
side.  Outcomes of the external calls (`executeContractCall`, the bridge
kit, `executeTransfer`, and `pollTransactionComplete`) are supplied by an
`ExecEnv`. -/

/-- The Universal Router address constant. -/
def UNIVERSAL_ROUTER : String := "0x3A9D48AB9751398BbFa63ad67599Bb04e4BdF98b"

/-- Circle token id of USDC on Arc Testnet. -/
def ARC_USDC_TOKEN_ID : String := "15dc2b5d-0994-58b0-bf8c-3a0501148ee8"

/-- Circle token id of EURC on Arc Testnet. -/
def ARC_EURC_TOKEN_ID : String := "4ea52a96-e6ae-56dc-8336-385bb238755f"

/-- One `onStepUpdate(stepId, update)` invocation.  The executor only ever
passes the three `Partial<ExecutionStep>` shapes below. -/
inductive StepUpdate
  | running (stepId : String)
  | success (stepId : String) (txHash : String)
  | failed (stepId : String) (error : String)
  deriving DecidableEq, Repr

/-- The swap transaction handed to `executeContractCall`: the Universal
Router call with the `SWAP_EXACT_OUT_SINGLE`, `SETTLE_ALL` and `TAKE_ALL`
action parameters and the attached native value (wallet id elided). -/
structure SwapSubmission where
  contractAddress : String
  amountOut : ℤ
  amountInMaximum : ℕ
  settleAmount : ℕ
  takeMin : ℕ
  deadline : ℕ
  value : ℕ
  deriving DecidableEq, Repr

/-- The bridge request handed to `kit.bridge` (adapters and the fixed
chain/address routing elided). -/
structure BridgeSubmission where
  amount : PRat
  deriving DecidableEq, Repr

/-- The transfer handed to `executeTransfer` (wallet id elided). -/
structure TransferSubmission where
  tokenId : String
  amount : Option PRat
  destinationAddress : String
  deriving DecidableEq, Repr

/-- Observable actions of the executor, in order: callback invocations and
submissions to the external services. -/
inductive Effect
  | update (u : StepUpdate)
  | swapSubmit (s : SwapSubmission)
  | bridgeSubmit (b : BridgeSubmission)
  | transferSubmit (t : TransferSubmission)
  deriving DecidableEq, Repr

/-- Outcome of a submission call: the call throws, resolves to a falsy
result, or resolves to a transaction handle. -/
inductive SubmitOutcome
  | throws (msg : String)
  | nullResult
  | submitted (id : String)
  deriving DecidableEq, Repr

/-- External outcomes consumed by one run of `executeTreasuryPlan`.
`swapQuote` is the execution-time re-quote; the poll fields are the results
of `pollTransactionComplete` on the respective handles (`Except.error` is a
thrown exception's message). -/
structure ExecEnv where
  swapQuote : ℤ → ℕ
  now : ℕ
  swapCall : SubmitOutcome
  swapPoll : Except String String
  bridgeRun : Except String (Option String)
  transferCall : SubmitOutcome
  transferPoll : Except String String

/-- Result value of `executeTreasuryPlan`. -/
structure ExecResult where
  success : Bool
  error : Option String := none
  deriving DecidableEq, Repr

/-- Step 3 of the executor's `try` body: the Arc transfer. -/
def transferPhase (plan : TreasuryPlan) (env : ExecEnv) (acc : List Effect) :
    List Effect × Option String :=
  if (plan.steps.find? (fun s => s.id == "transfer")).isSome then
    let acc := acc ++ [Effect.update (.running "transfer")]
    let tokenId := if plan.invoiceCurrency == "EURC" then ARC_EURC_TOKEN_ID else ARC_USDC_TOKEN_ID
    let acc := acc ++
      [Effect.transferSubmit ⟨tokenId, plan.invoiceAmount, plan.recipientAddress⟩]
    match env.transferCall with
    | .throws m => (acc, some m)
    | .nullResult => (acc, some "Arc transfer failed to submit")
    | .submitted _ =>
      match env.transferPoll with
      | .error m => (acc, some m)
      | .ok h => (acc ++ [Effect.update (.success "transfer" h)], none)
  else (acc, none)

/-- Step 2 of the executor's `try` body: the CCTP bridge. -/
def bridgePhase (plan : TreasuryPlan) (env : ExecEnv) (acc : List Effect) :
    List Effect × Option String :=
  match plan.bridgeAmount with
  | some amt =>
    if plan.bridgeNeeded && (plan.steps.find? (fun s => s.id == "bridge")).isSome then
      let acc := acc ++ [Effect.update (.running "bridge"), Effect.bridgeSubmit ⟨amt⟩]
      match env.bridgeRun with
      | .error m => (acc, some m)
      | .ok mintTxHash =>
        transferPhase plan env
          (acc ++ [Effect.update (.success "bridge" (mintTxHash.getD "completed"))])
    else transferPhase plan env acc
  | none => transferPhase plan env acc

/-- Step 1 of the executor's `try` body: the Uniswap v4 swap.  The swap
amount is recomputed from the plan's `deficit` and `sepoliaUsdcBalance`
strings (`parseFloat` on each, double subtraction), the quote is re-derived
through `env.swapQuote`, and the submitted call carries the slippage-bounded
`maxAmountIn` derived from that execution-time quote. -/
def swapPhase (plan : TreasuryPlan) (env : ExecEnv) : List Effect × Option String :=
  if plan.swapNeeded && (plan.steps.find? (fun s => s.id == "swap")).isSome then
    let acc := [Effect.update (.running "swap")]
    let needToSwap := fsub (rd plan.deficit) (rd plan.sepoliaUsdcBalance)
    let swapAmountUsdc := toFixedUnits needToSwap
    let amountIn := env.swapQuote swapAmountUsdc
    let maxAmountIn := maxAmountInCalc amountIn SLIPPAGE_BPS
    let acc := acc ++
      [Effect.swapSubmit
        { contractAddress := UNIVERSAL_ROUTER
          amountOut := swapAmountUsdc
          amountInMaximum := maxAmountIn
          settleAmount := maxAmountIn
          takeMin := 0
          deadline := env.now / 1000 + 3600
          value := maxAmountIn }]
    match env.swapCall with
    | .throws m => (acc, some m)
    | .nullResult => (acc, some "Swap transaction failed to submit")
    | .submitted _ =>
      match env.swapPoll with
      | .error m => (acc, some m)
      | .ok h => bridgePhase plan env (acc ++ [Effect.update (.success "swap" h)])
  else bridgePhase plan env []

/-- The executor.  Returns the `plan` object as it stands at return (the
body contains no assignment to it), the ordered effects, and the result
value.  The `catch` block walks `plan.steps` and emits a failed update for
every step whose `status` field — the status stored in the plan argument
itself, which no callback of this repository writes back — reads
`running`. -/
def executeTreasuryPlan (plan : TreasuryPlan) (env : ExecEnv) :
    TreasuryPlan × List Effect × ExecResult :=
  match swapPhase plan env with
  | (effs, none) => (plan, effs, { success := true })
  | (effs, some m) =>
    let failUpdates := (plan.steps.filter (fun s => s.status == StepStatus.running)).map
      (fun s => Effect.update (.failed s.id m))
    (plan, effs ++ failUpdates, { success := false, error := some m })

/-- The consumer side of the progress channel (the browser client of the
SSE stream): apply one `step_update` event to a mirrored step list, merging
the update's fields into every step with the matching id. -/
def applyStepUpdate (steps : List ExecutionStep) (u : StepUpdate) : List ExecutionStep :=
  steps.map fun s =>
    match u with
    | .running stepId => if s.id == stepId then { s with status := .running } else s
    | .success stepId h =>
      if s.id == stepId then { s with status := .success, txHash := some h } else s
    | .failed stepId e =>
      if s.id == stepId then { s with status := .failed, error := some e } else s

/-- Fold a run's updates into a mirrored step list, ignoring the submission
effects (which the route does not stream). -/
def applyEffects (steps : List ExecutionStep) (effs : List Effect) : List ExecutionStep :=
  effs.foldl
    (fun acc e =>
      match e with
      | Effect.update u => applyStepUpdate acc u
      | _ => acc)
    steps

/-! ## pollTransactionComplete

The polling loop runs while `Date.now() - start < timeoutMs`, reads the
transaction state, returns on `CONFIRMED`/`COMPLETE`, throws on
`FAILED`/`CANCELLED`, and otherwise sleeps 3000 ms.  Time is modelled by
the sleeps: before the `i`-th request the elapsed time is `3000 * i` (each
network request itself is modelled as instantaneous; real request latency
only makes the loop take fewer iterations).  The `i`-th response of
`client.getTransaction` is supplied as `responses i`; `none` models a
response without a transaction object. -/

/-- One polled transaction record: its `state` string and optional
`txHash` / `errorReason`. -/
structure TxResp where
  state : String
  txHash : Option String := none
  errorReason : Option String := none
  deriving DecidableEq, Repr

/-- Whether a poll response makes the loop stop (either terminally succeed
or throw). -/
def pollDecisive (r : Option TxResp) : Bool :=
  match r with
  | some tx =>
    tx.state == "CONFIRMED" || tx.state == "COMPLETE" ||
      tx.state == "FAILED" || tx.state == "CANCELLED"
  | none => false

/-- The loop's verdict on a decisive response: the returned hash, or the
thrown error message. -/
def pollVerdict (transactionId : String) (r : Option TxResp) : Except String String :=
  match r with
  | some tx =>
    if tx.state == "CONFIRMED" || tx.state == "COMPLETE" then
      .ok (tx.txHash.getD transactionId)
    else
      .error ("Transaction " ++ transactionId ++ " " ++ tx.state ++ ": "
        ++ tx.errorReason.getD "unknown")
  | none => .error ("Transaction " ++ transactionId ++ " timed out")

/-- The polling loop body, fuel-bounded: iteration `i` runs only while
`3000 * i < timeoutMs`.  The fuel is chosen in `pollTransactionComplete` so
that it outlasts the guard; the fuel-exhausted value coincides with the
guard-failed value. -/
def pollLoop (responses : ℕ → Option TxResp) (transactionId : String) (timeoutMs : ℕ) :
    ℕ → ℕ → Except String String
  | 0, _ => .error ("Transaction " ++ transactionId ++ " timed out")
  | fuel+1, i =>
    if 3000 * i < timeoutMs then
      match responses i with
      | some tx =>
        if tx.state == "CONFIRMED" || tx.state == "COMPLETE" then
          .ok (tx.txHash.getD transactionId)
        else if tx.state == "FAILED" || tx.state == "CANCELLED" then
          .error ("Transaction " ++ transactionId ++ " " ++ tx.state ++ ": "
            ++ tx.errorReason.getD "unknown")
        else pollLoop responses transactionId timeoutMs fuel (i+1)
      | none => pollLoop responses transactionId timeoutMs fuel (i+1)
    else .error ("Transaction " ++ transactionId ++ " timed out")

/-- `pollTransactionComplete`, default timeout 120000 ms, 3000 ms fixed
interval: returns the transaction hash (or the transaction id when the
record carries no hash) on a confirmed state, and otherwise the thrown
error as `Except.error`. -/
def pollTransactionComplete (responses : ℕ → Option TxResp) (transactionId : String)
    (timeoutMs : ℕ := 120000) : Except String String :=
  pollLoop responses transactionId timeoutMs (timeoutMs / 3000 + 1) 0

/-! ## getSlippageBps (paymentPlanner) -/

/-- A JavaScript number as produced by `Number(...)` on an environment
string: either not finite (`NaN` or an infinity) or a finite value. -/
inductive JsNumber
  | notFinite
  | val (q : PRat)
  deriving DecidableEq, Repr

/-- `getSlippageBps` of `paymentPlanner.ts`: `Number(env || '500')`, kept
when finite and nonnegative, else 100.  The argument is the parsed
environment variable (`none` when the variable is unset or empty, in which
case the code parses the literal `'500'`). -/
def getSlippageBps : Option JsNumber → PRat
  | none => ⟨500, 1⟩
  | some JsNumber.notFinite => ⟨100, 1⟩
  | some (JsNumber.val q) => if PRat.ble ⟨0, 1⟩ q then q else ⟨100, 1⟩

/-! ## Concrete fixtures

Concrete invoices, environments and plans used to instantiate the theorems
below on closed inputs. -/

/-- An invoice in an unsupported currency ("5000 BTC"). -/
def unsupInvoice : InvoiceData :=
  { walletAddress := "0xVendorA", amountParsed := some (⟨5000, 1⟩, "BTC") }

/-- An environment with empty balances and a zero quoter. -/
def emptyEnv : PlanEnv :=
  { arcBalances := [], sepoliaBalances := [], ethBalanceWei := 0, quoter := fun _ => 0 }

/-- Invoice "0.003 USDC". -/
def cexInvoice : InvoiceData :=
  { walletAddress := "0xVendorB", amountParsed := some (⟨3, 1000⟩, "USDC") }

/-- Environment with Arc USDC balance "0.013" (exactly amount plus the 0.01
buffer for `cexInvoice`) and a large Sepolia USDC balance. -/
def cexEnv : PlanEnv :=
  { arcBalances := [⟨"USDC", ⟨13, 1000⟩⟩]
    sepoliaBalances := [⟨"USDC", ⟨1000, 1⟩⟩]
    ethBalanceWei := 0
    quoter := fun _ => 0 }

/-- Invoice "0.2 USDC". -/
def defInvoice : InvoiceData :=
  { walletAddress := "0xVendorC", amountParsed := some (⟨2, 10⟩, "USDC") }

/-- Environment with no Arc USDC (settlement balance "0") and a large
Sepolia USDC balance. -/
def defEnv : PlanEnv :=
  { arcBalances := []
    sepoliaBalances := [⟨"USDC", ⟨1000, 1⟩⟩]
    ethBalanceWei := 0
    quoter := fun _ => 0 }

/-- Invoice "50 USDC" (the spec's Scenario B). -/
def scBInvoice : InvoiceData :=
  { walletAddress := "0xVendorD", amountParsed := some (⟨50, 1⟩, "USDC") }

/-- Scenario B environment: Arc USDC 10, Sepolia USDC 20, one ETH, quoter
asking 0.01 ETH for the requested output. -/
def scBEnv : PlanEnv :=
  { arcBalances := [⟨"USDC", ⟨10, 1⟩⟩]
    sepoliaBalances := [⟨"USDC", ⟨20, 1⟩⟩]
    ethBalanceWei := 1000000000000000000
    quoter := fun _ => 10000000000000000 }

/-- Scenario C environment: like Scenario B but with too little ETH for the
slippage-buffered quote. -/
def scCEnv : PlanEnv :=
  { arcBalances := [⟨"USDC", ⟨10, 1⟩⟩]
    sepoliaBalances := [⟨"USDC", ⟨20, 1⟩⟩]
    ethBalanceWei := 1000000000000000
    quoter := fun _ => 10000000000000000 }

/-- A sufficient-balance environment for "50 USDC" (Arc USDC 100). -/
def suffEnv : PlanEnv :=
  { arcBalances := [⟨"USDC", ⟨100, 1⟩⟩]
    sepoliaBalances := []
    ethBalanceWei := 0
    quoter := fun _ => 0 }

/-- The single-transfer plan for "50 USDC" against `suffEnv`. -/
def suffPlan : TreasuryPlan := buildTreasuryPlan scBInvoice suffEnv

/-- The three-step plan for Scenario B. -/
def scBPlan : TreasuryPlan := buildTreasuryPlan scBInvoice scBEnv

/-- An execution environment in which every external call succeeds. -/
def okExecEnv : ExecEnv :=
  { swapQuote := fun _ => 10000000000000000
    now := 1700000000000
    swapCall := .submitted "handle-swap"
    swapPoll := .ok "0xswaphash"
    bridgeRun := .ok (some "0xminthash")
    transferCall := .submitted "handle-transfer"
    transferPoll := .ok "0xtransferhash" }

/-- An execution environment whose Arc transfer submission throws. -/
def transferThrowsEnv : ExecEnv :=
  { swapQuote := fun _ => 0
    now := 0
    swapCall := .nullResult
    swapPoll := .error "unused"
    bridgeRun := .ok none
    transferCall := .throws "boom"
    transferPoll := .ok "unused" }

/-! ## Theorems -/

/-- Claim C8: every planning failure is a returned value (the embedding of
`buildTreasuryPlan` is a total function), and whenever the returned plan has
`canExecute = false` its step list is empty and its reason is present (each
`PlanReason` constructor stands for a non-empty template string of the
source). -/
theorem buildTreasuryPlan_failure_no_steps_with_reason (invoiceData : InvoiceData)
    (env : PlanEnv) (h : (buildTreasuryPlan invoiceData env).canExecute = false) :
    (buildTreasuryPlan invoiceData env).steps = [] ∧
      (buildTreasuryPlan invoiceData env).reason.isSome = true := by
  revert h
  unfold buildTreasuryPlan
  rcases hp : parseInvoiceCurrency invoiceData with _ | ⟨amount, currency⟩ <;> dsimp only
  · simp
  · split
    · simp
    · split
      · simp
      · split
        · split <;> simp
        · simp

/-- Witness for C8 at the concrete unsupported invoice "5000 BTC". -/
theorem buildTreasuryPlan_failure_no_steps_with_reason_witness :
    (buildTreasuryPlan unsupInvoice emptyEnv).steps = [] ∧
      (buildTreasuryPlan unsupInvoice emptyEnv).reason.isSome = true :=
  buildTreasuryPlan_failure_no_steps_with_reason unsupInvoice emptyEnv (by decide)

/-- Claim C2, counterexample: for invoice amount "0.003" USDC and settlement
balance "0.013", the exact fixed-point comparison `balance ≥ amount+buffer`
holds (with equality), yet `buildTreasuryPlan` computes the comparison in
binary64 (`parseFloat` and double addition) and deems the balance
insufficient — the threshold comparison does not match exact fixed-point
integer arithmetic. -/
theorem buildTreasuryPlan_comparison_not_fixed_point :
    ((3 : ℚ)/1000 + 1/100 ≤ 13/1000) ∧
      (buildTreasuryPlan cexInvoice cexEnv).arcSufficient = false := by
  constructor
  · norm_num
  · decide

/-- Claim C2, amended: the two amount comparisons of `buildTreasuryPlan` are
computed in IEEE-754 binary64 floating point, not in fixed-point integer
base units: the settlement-sufficiency test is the double comparison
`rd balance ≥ rd amount ⊕ rd 0.01` and (for USDC invoices on the
insufficient branch) the swap-necessity test is the double comparison
`deficit ⊖ rd usdcBalance > 0`. -/
theorem buildTreasuryPlan_comparisons_binary64 (invoiceData : InvoiceData) (env : PlanEnv)
    (amount : PRat) (currency : Currency)
    (hp : parseInvoiceCurrency invoiceData = some (amount, currency)) :
    (buildTreasuryPlan invoiceData env).arcSufficient =
      PRat.ble (fadd (rd amount) ARC_GAS_BUFFER)
        (rd (findTokenBalance env.arcBalances currency.symbol)) ∧
    ((buildTreasuryPlan invoiceData env).arcSufficient = false → currency = Currency.USDC →
      (buildTreasuryPlan invoiceData env).swapNeeded =
        PRat.blt ⟨0, 1⟩
          (fsub
            (fsub (fadd (rd amount) ARC_GAS_BUFFER)
              (rd (findTokenBalance env.arcBalances currency.symbol)))
            (rd (findTokenBalance env.sepoliaBalances "USDC")))) := by
  unfold buildTreasuryPlan
  simp only [hp]
  split
  · rename_i hb
    simp [hb]
  · rename_i hb
    rcases currency with _ | _
    · simp only [Bool.not_eq_true, Currency.symbol] at hb
      constructor
      · dsimp only [Currency.symbol]
        split
        · split <;> simp [hb]
        · simp [hb]
      · intro _ _
        dsimp only [Currency.symbol]
        split
        · rename_i hs
          split <;> simp [hs]
        · rename_i hs
          simp only [Bool.not_eq_true] at hs
          simp [hs]
    · simp_all

/-- Witness for the amended C2 at Scenario B's concrete inputs. -/
theorem buildTreasuryPlan_comparisons_binary64_witness :
    (buildTreasuryPlan scBInvoice scBEnv).arcSufficient =
      PRat.ble (fadd (rd ⟨50, 1⟩) ARC_GAS_BUFFER)
        (rd (findTokenBalance scBEnv.arcBalances Currency.USDC.symbol)) ∧
    ((buildTreasuryPlan scBInvoice scBEnv).arcSufficient = false →
      Currency.USDC = Currency.USDC →
      (buildTreasuryPlan scBInvoice scBEnv).swapNeeded =
        PRat.blt ⟨0, 1⟩
          (fsub
            (fsub (fadd (rd ⟨50, 1⟩) ARC_GAS_BUFFER)
              (rd (findTokenBalance scBEnv.arcBalances Currency.USDC.symbol)))
            (rd (findTokenBalance scBEnv.sepoliaBalances "USDC")))) :=
  buildTreasuryPlan_comparisons_binary64 scBInvoice scBEnv ⟨50, 1⟩ Currency.USDC (by decide)

/-- Claim C4, counterexample: for invoice "0.003" USDC with settlement
balance "0.013", the balance is (exactly) at least the amount plus the 0.01
buffer, yet the returned plan is not the single-Transfer plan the claim
describes: it has two steps and a nonzero deficit, because the sufficiency
comparison is evaluated in binary64. -/
theorem buildTreasuryPlan_sufficient_exact_fails :
    ((3 : ℚ)/1000 + 1/100 ≤ 13/1000) ∧
      (buildTreasuryPlan cexInvoice cexEnv).steps.length = 2 ∧
      (buildTreasuryPlan cexInvoice cexEnv).deficit.toRat ≠ 0 := by
  refine ⟨by norm_num, by decide, ?_⟩
  have h : (buildTreasuryPlan cexInvoice cexEnv).deficit
      = ⟨4503599627370496, 2596148429267413814265248164610048⟩ := by decide
  rw [h]
  norm_num [PRat.toRat]

/-- Claim C4, amended: for every invoice in a supported currency whose
settlement balance passes the code's binary64 sufficiency test
(`rd balance ≥ rd amount ⊕ rd 0.01`), `buildTreasuryPlan` returns a plan
with `canExecute = true`, deficit `"0"`, and exactly one step, the pending
Transfer. -/
theorem buildTreasuryPlan_sufficient_single_transfer (invoiceData : InvoiceData)
    (env : PlanEnv) (amount : PRat) (currency : Currency)
    (hp : parseInvoiceCurrency invoiceData = some (amount, currency))
    (hs : PRat.ble (fadd (rd amount) ARC_GAS_BUFFER)
      (rd (findTokenBalance env.arcBalances currency.symbol)) = true) :
    (buildTreasuryPlan invoiceData env).canExecute = true ∧
      (buildTreasuryPlan invoiceData env).deficit = ⟨0, 1⟩ ∧
      (buildTreasuryPlan invoiceData env).steps = [transferStep] := by
  unfold buildTreasuryPlan
  simp only [hp]
  split
  · simp
  · simp_all

/-- Witness for the amended C4: invoice "50 USDC" against Arc balance 100. -/
theorem buildTreasuryPlan_sufficient_single_transfer_witness :
    (buildTreasuryPlan scBInvoice suffEnv).canExecute = true ∧
      (buildTreasuryPlan scBInvoice suffEnv).deficit = ⟨0, 1⟩ ∧
      (buildTreasuryPlan scBInvoice suffEnv).steps = [transferStep] :=
  buildTreasuryPlan_sufficient_single_transfer scBInvoice suffEnv ⟨50, 1⟩ Currency.USDC
    (by decide) (by decide)

/-- Claim C5, counterexample: for invoice "0.2" USDC with settlement balance
0 (insufficient), the exact deficit `(amount + buffer) - balance` is 21/100,
but the plan's deficit field is the composed double
`(rd 0.2 ⊕ rd 0.01) ⊖ 0`, which differs from the double nearest 21/100 by
one unit in the last place.  Consequently no decimal string denoting 21/100
can be the stored deficit (every stored amount string parses back to the
plan's double, and `rd` of 21/100 is a different double). -/
theorem buildTreasuryPlan_deficit_not_exact :
    ((0 : ℚ) < 1/5 + 1/100) ∧
      ((1 : ℚ)/5 + 1/100 - 0 = (⟨21, 100⟩ : PRat).toRat) ∧
      rd ⟨21, 100⟩ ≠ (buildTreasuryPlan defInvoice defEnv).deficit := by
  refine ⟨by norm_num, by norm_num [PRat.toRat], by decide⟩

/-- Claim C5, amended: for every USDC invoice failing the binary64
sufficiency test, the plan's deficit is the binary64 evaluation of
`(amount + buffer) - settlementBalance`; when the plan is executable its
steps are, in order, a Swap exactly when the double comparison
`deficit ⊖ liquidityUsdcBalance > 0` holds, then the Bridge, then the
Transfer, with `swapNeeded` recording that comparison, and the bridged
amount is the deficit rounded to the 6-decimal token precision
(`deficit.toFixed(6)`), with `canExecute = true`. -/
theorem buildTreasuryPlan_insufficient_usdc_shape (invoiceData : InvoiceData)
    (env : PlanEnv) (amount : PRat)
    (hp : parseInvoiceCurrency invoiceData = some (amount, Currency.USDC))
    (hs : PRat.ble (fadd (rd amount) ARC_GAS_BUFFER)
      (rd (findTokenBalance env.arcBalances "USDC")) = false) :
    (buildTreasuryPlan invoiceData env).deficit =
      fsub (fadd (rd amount) ARC_GAS_BUFFER) (rd (findTokenBalance env.arcBalances "USDC")) ∧
    ((buildTreasuryPlan invoiceData env).canExecute = true →
      (buildTreasuryPlan invoiceData env).steps =
        (if PRat.blt ⟨0, 1⟩
            (fsub
              (fsub (fadd (rd amount) ARC_GAS_BUFFER)
                (rd (findTokenBalance env.arcBalances "USDC")))
              (rd (findTokenBalance env.sepoliaBalances "USDC"))) = true
          then [swapStep] else []) ++ [bridgeStep, transferStep] ∧
      (buildTreasuryPlan invoiceData env).bridgeAmount =
        some (toFixedVal
          (fsub (fadd (rd amount) ARC_GAS_BUFFER)
            (rd (findTokenBalance env.arcBalances "USDC")))) ∧
      (buildTreasuryPlan invoiceData env).swapNeeded =
        PRat.blt ⟨0, 1⟩
          (fsub
            (fsub (fadd (rd amount) ARC_GAS_BUFFER)
              (rd (findTokenBalance env.arcBalances "USDC")))
            (rd (findTokenBalance env.sepoliaBalances "USDC")))) := by
  unfold buildTreasuryPlan
  simp only [hp]
  split
  · rename_i hb
    simp only [Currency.symbol] at hb
    simp [hb] at hs
  · dsimp only [Currency.symbol]
    split
    · rename_i hswap
      split
      · simp
      · simp [hswap]
    · rename_i hswap
      simp only [Bool.not_eq_true] at hswap
      simp [hswap]

/-- Witness for the amended C5 at Scenario B (50 USDC, settlement 10,
liquidity USDC 20, ample ETH): a Swap, Bridge, Transfer plan. -/
theorem buildTreasuryPlan_insufficient_usdc_shape_witness :
    (buildTreasuryPlan scBInvoice scBEnv).deficit =
      fsub (fadd (rd ⟨50, 1⟩) ARC_GAS_BUFFER) (rd (findTokenBalance scBEnv.arcBalances "USDC")) ∧
    ((buildTreasuryPlan scBInvoice scBEnv).canExecute = true →
      (buildTreasuryPlan scBInvoice scBEnv).steps =
        (if PRat.blt ⟨0, 1⟩
            (fsub
              (fsub (fadd (rd ⟨50, 1⟩) ARC_GAS_BUFFER)
                (rd (findTokenBalance scBEnv.arcBalances "USDC")))
              (rd (findTokenBalance scBEnv.sepoliaBalances "USDC"))) = true
          then [swapStep] else []) ++ [bridgeStep, transferStep] ∧
      (buildTreasuryPlan scBInvoice scBEnv).bridgeAmount =
        some (toFixedVal
          (fsub (fadd (rd ⟨50, 1⟩) ARC_GAS_BUFFER)
            (rd (findTokenBalance scBEnv.arcBalances "USDC")))) ∧
      (buildTreasuryPlan scBInvoice scBEnv).swapNeeded =
        PRat.blt ⟨0, 1⟩
          (fsub
            (fsub (fadd (rd ⟨50, 1⟩) ARC_GAS_BUFFER)
              (rd (findTokenBalance scBEnv.arcBalances "USDC")))
            (rd (findTokenBalance scBEnv.sepoliaBalances "USDC")))) :=
  buildTreasuryPlan_insufficient_usdc_shape scBInvoice scBEnv ⟨50, 1⟩ (by decide) (by decide)

/-- Claim C6: for every USDC invoice that fails the binary64 sufficiency
test and needs a swap, if the slippage-buffered quoted input exceeds the
available ETH balance then `buildTreasuryPlan` returns `canExecute = false`
with no steps and a reason naming the shortfall — the required ETH
(`maxAmountIn` formatted over 10^18 wei) and the available ETH. -/
theorem buildTreasuryPlan_insufficient_eth_aborts (invoiceData : InvoiceData)
    (env : PlanEnv) (amount : PRat)
    (hp : parseInvoiceCurrency invoiceData = some (amount, Currency.USDC))
    (hs : PRat.ble (fadd (rd amount) ARC_GAS_BUFFER)
      (rd (findTokenBalance env.arcBalances "USDC")) = false)
    (hswap : PRat.blt ⟨0, 1⟩
      (fsub
        (fsub (fadd (rd amount) ARC_GAS_BUFFER)
          (rd (findTokenBalance env.arcBalances "USDC")))
        (rd (findTokenBalance env.sepoliaBalances "USDC"))) = true)
    (heth : env.ethBalanceWei <
      maxAmountInCalc
        (env.quoter (toFixedUnits
          (fsub
            (fsub (fadd (rd amount) ARC_GAS_BUFFER)
              (rd (findTokenBalance env.arcBalances "USDC")))
            (rd (findTokenBalance env.sepoliaBalances "USDC")))))
        SLIPPAGE_BPS) :
    (buildTreasuryPlan invoiceData env).canExecute = false ∧
    (buildTreasuryPlan invoiceData env).steps = [] ∧
    (buildTreasuryPlan invoiceData env).reason =
      some (PlanReason.insufficientEthForSwap
        ⟨(maxAmountInCalc
            (env.quoter (toFixedUnits
              (fsub
                (fsub (fadd (rd amount) ARC_GAS_BUFFER)
                  (rd (findTokenBalance env.arcBalances "USDC")))
                (rd (findTokenBalance env.sepoliaBalances "USDC")))))
            SLIPPAGE_BPS : ℤ), 1000000000000000000⟩
        ⟨(env.ethBalanceWei : ℤ), 1000000000000000000⟩) := by
  unfold buildTreasuryPlan
  simp only [hp]
  split
  · rename_i hb
    simp only [Currency.symbol] at hb
    simp [hb] at hs
  · dsimp only [Currency.symbol]
    rw [if_pos hswap, if_pos heth]
    simp

/-- Witness for C6 at Scenario C (50 USDC, settlement 10, liquidity USDC 20,
0.001 ETH against a 0.0105 ETH requirement). -/
theorem buildTreasuryPlan_insufficient_eth_aborts_witness :
    (buildTreasuryPlan scBInvoice scCEnv).canExecute = false ∧
    (buildTreasuryPlan scBInvoice scCEnv).steps = [] ∧
    (buildTreasuryPlan scBInvoice scCEnv).reason =
      some (PlanReason.insufficientEthForSwap
        ⟨(maxAmountInCalc
            (scCEnv.quoter (toFixedUnits
              (fsub
                (fsub (fadd (rd ⟨50, 1⟩) ARC_GAS_BUFFER)
                  (rd (findTokenBalance scCEnv.arcBalances "USDC")))
                (rd (findTokenBalance scCEnv.sepoliaBalances "USDC")))))
            SLIPPAGE_BPS : ℤ), 1000000000000000000⟩
        ⟨(scCEnv.ethBalanceWei : ℤ), 1000000000000000000⟩) :=
  buildTreasuryPlan_insufficient_eth_aborts scBInvoice scCEnv ⟨50, 1⟩
    (by decide) (by decide) (by decide) (by decide)

/-- Claim C7, counterexample: with the default slippage (500 bps), the
computed bound at `requiredInput = 1` is `(1 * 10500) / 10000 = 1` under the
code's truncating `BigInt` division, while the claim's exact formula
`requiredInput * (1 + slippageBps/10000)` gives 1.05 — the equality the
claim states does not hold. -/
theorem maxAmountIn_not_exact_product :
    getSlippageBps none = ⟨500, 1⟩ ∧
    maxAmountInCalc 1 500 = 1 ∧
    ((maxAmountInCalc 1 500 : ℚ) ≠ (1 : ℚ) * (1 + 500 / 10000)) := by
  have h : maxAmountInCalc 1 500 = 1 := rfl
  refine ⟨rfl, h, ?_⟩
  rw [h]
  norm_num

/-- Claim C7, amended: the computed bound is the floor of
`requiredInput * (1 + slippageBps/10000)` (exact integer arithmetic with
truncating division by 10000), and `getSlippageBps` yields 500 when the
environment does not configure a slippage. -/
theorem maxAmountIn_floor_formula (requiredInput slippageBps : ℕ) :
    maxAmountInCalc requiredInput slippageBps =
      ⌊(requiredInput : ℚ) * (1 + (slippageBps : ℚ) / 10000)⌋₊ ∧
    getSlippageBps none = ⟨500, 1⟩ := by
  refine ⟨?_, rfl⟩
  have h : (requiredInput : ℚ) * (1 + (slippageBps : ℚ) / 10000)
      = ((requiredInput * (10000 + slippageBps) : ℕ) : ℚ) / ((10000 : ℕ) : ℚ) := by
    push_cast
    ring
  rw [h, Nat.floor_div_eq_div]
  rfl

/-- Claim C10: the executor never mutates its plan argument — the plan
object it returns (first component) is the argument itself, for every input
plan and every outcome; all progress is communicated through the
`onStepUpdate` effects (second component), which the API route streams to
the consumer. -/
theorem executeTreasuryPlan_plan_unchanged (plan : TreasuryPlan) (env : ExecEnv) :
    (executeTreasuryPlan plan env).1 = plan := by
  unfold executeTreasuryPlan
  rcases h : swapPhase plan env with ⟨effs, err⟩
  cases err <;> simp

/-- Claim C1 (the code against the claim): executing the single-Transfer
plan for "50 USDC" with an Arc transfer submission that throws "boom", the
executor returns `success = false` with the error, but — the `catch` block
reads the statuses stored in the `plan` argument, which stay `pending`
because updates are only streamed outward — it emits no `failed` update at
all, and the consumer's mirrored step list still shows the transfer step
`running` when the executor returns. -/
theorem executeTreasuryPlan_failed_step_stays_running :
    (executeTreasuryPlan suffPlan transferThrowsEnv).2.2 =
      { success := false, error := some "boom" } ∧
    ((executeTreasuryPlan suffPlan transferThrowsEnv).2.1.all
      (fun e => match e with
        | Effect.update (StepUpdate.failed _ _) => false
        | _ => true)) = true ∧
    (applyEffects suffPlan.steps (executeTreasuryPlan suffPlan transferThrowsEnv).2.1).map
      (fun s => (s.id, s.status)) = [("transfer", StepStatus.running)] := by
  decide

/-- The polling loop consults only the responses inside the timeout window
and ends with the first decisive one: with `N = ⌈timeoutMs / 3000⌉`, running
the loop from iteration `i` with at least `N - i` fuel yields the verdict of
the first decisive response at an index `j ≥ i` with `3000 * j < timeoutMs`,
or the timeout error if there is none. -/
theorem pollLoop_spec (responses : ℕ → Option TxResp) (transactionId : String)
    (timeoutMs : ℕ) :
    ∀ (fuel i : ℕ), (timeoutMs + 2999) / 3000 ≤ i + fuel →
      pollLoop responses transactionId timeoutMs fuel i =
        (match (List.range' i ((timeoutMs + 2999) / 3000 - i)).find?
            (fun j => pollDecisive (responses j)) with
        | some j => pollVerdict transactionId (responses j)
        | none => Except.error ("Transaction " ++ transactionId ++ " timed out")) := by
  intro fuel
  induction fuel with
  | zero =>
    intro i hi
    have h0 : (timeoutMs + 2999) / 3000 - i = 0 := by omega
    rw [h0]
    rfl
  | succ fuel ih =>
    intro i hi
    simp only [pollLoop]
    by_cases hg : 3000 * i < timeoutMs
    · have hsub : (timeoutMs + 2999) / 3000 - i
          = ((timeoutMs + 2999) / 3000 - (i + 1)) + 1 := by omega
      rw [hsub, List.range'_succ, if_pos hg]
      cases hr : responses i with
      | none =>
        have hfind : (i :: List.range' (i + 1) ((timeoutMs + 2999) / 3000 - (i + 1))).find?
            (fun j => pollDecisive (responses j))
            = (List.range' (i + 1) ((timeoutMs + 2999) / 3000 - (i + 1))).find?
              (fun j => pollDecisive (responses j)) :=
          List.find?_cons_of_neg _
            (show ¬ (fun j => pollDecisive (responses j)) i = true by simp [pollDecisive, hr])
        rw [hfind]
        exact ih (i + 1) (by omega)
      | some tx =>
        by_cases h1 : (tx.state == "CONFIRMED" || tx.state == "COMPLETE") = true
        · have hd : pollDecisive (responses i) = true := by
            rw [hr]
            simp only [pollDecisive, Bool.or_eq_true] at h1 ⊢
            tauto
          have hfind : (i :: List.range' (i + 1) ((timeoutMs + 2999) / 3000 - (i + 1))).find?
              (fun j => pollDecisive (responses j)) = some i :=
            List.find?_cons_of_pos _
              (show (fun j => pollDecisive (responses j)) i = true from hd)
          rw [hfind]
          dsimp only
          rw [if_pos h1, hr]
          unfold pollVerdict
          dsimp only
          rw [if_pos h1]
        · by_cases h2 : (tx.state == "FAILED" || tx.state == "CANCELLED") = true
          · have hd : pollDecisive (responses i) = true := by
              rw [hr]
              simp only [pollDecisive, Bool.or_eq_true] at h2 ⊢
              tauto
            have hfind : (i :: List.range' (i + 1) ((timeoutMs + 2999) / 3000 - (i + 1))).find?
                (fun j => pollDecisive (responses j)) = some i :=
              List.find?_cons_of_pos _
                (show (fun j => pollDecisive (responses j)) i = true from hd)
            rw [hfind]
            dsimp only
            rw [if_neg h1, if_pos h2, hr]
            unfold pollVerdict
            dsimp only
            rw [if_neg h1]
          · have hd : ¬ (fun j => pollDecisive (responses j)) i = true := by
              show ¬ pollDecisive (responses i) = true
              rw [hr]
              simp only [pollDecisive, Bool.or_eq_true] at h1 h2 ⊢
              tauto
            have hfind : (i :: List.range' (i + 1) ((timeoutMs + 2999) / 3000 - (i + 1))).find?
                (fun j => pollDecisive (responses j))
                = (List.range' (i + 1) ((timeoutMs + 2999) / 3000 - (i + 1))).find?
                  (fun j => pollDecisive (responses j)) :=
              List.find?_cons_of_neg _ hd
            rw [hfind]
            dsimp only
            rw [if_neg h1, if_neg h2]
            exact ih (i + 1) (by omega)
    · have h0 : (timeoutMs + 2999) / 3000 - i = 0 := by omega
      rw [h0, if_neg hg]
      rfl

/-- Claim C9: `pollTransactionComplete` is total and bounded — its result is
fully determined by the `⌈timeoutMs / 3000⌉` responses inside the timeout
window (at most 40 polls at the 120000 ms default, 3000 ms fixed interval):
it returns the hash on the first Confirmed/Complete state, throws the state
error on the first Failed/Cancelled state, and otherwise throws the timeout
error once the (sleep-accounted) elapsed time reaches `timeoutMs`; it never
blocks beyond the window. -/
theorem pollTransactionComplete_bounded_characterization
    (responses : ℕ → Option TxResp) (transactionId : String) (timeoutMs : ℕ) :
    pollTransactionComplete responses transactionId timeoutMs =
      (match (List.range ((timeoutMs + 2999) / 3000)).find?
          (fun i => pollDecisive (responses i)) with
      | some i => pollVerdict transactionId (responses i)
      | none => Except.error ("Transaction " ++ transactionId ++ " timed out")) := by
  have h := pollLoop_spec responses transactionId timeoutMs (timeoutMs / 3000 + 1) 0
    (by omega)
  unfold pollTransactionComplete
  rw [h, Nat.sub_zero, List.range_eq_range']

/-- The transfer phase adds no swap submission. -/
theorem transferPhase_swapSubmit_mem (plan : TreasuryPlan) (env : ExecEnv)
    (acc : List Effect) (s : SwapSubmission)
    (h : Effect.swapSubmit s ∈ (transferPhase plan env acc).1) :
    Effect.swapSubmit s ∈ acc := by
  unfold transferPhase at h
  split at h
  · rcases htc : env.transferCall with m | _ | tid <;> rw [htc] at h <;> dsimp only at h
    · simpa using h
    · simpa using h
    · rcases htp : env.transferPoll with e | hh <;> rw [htp] at h <;> dsimp only at h <;>
        simpa using h
  · exact h

/-- The bridge phase adds no swap submission. -/
theorem bridgePhase_swapSubmit_mem (plan : TreasuryPlan) (env : ExecEnv)
    (acc : List Effect) (s : SwapSubmission)
    (h : Effect.swapSubmit s ∈ (bridgePhase plan env acc).1) :
    Effect.swapSubmit s ∈ acc := by
  unfold bridgePhase at h
  split at h
  · split at h
    · rcases hbr : env.bridgeRun with e | mh <;> rw [hbr] at h <;> dsimp only at h
      · simpa using h
      · have := transferPhase_swapSubmit_mem plan env _ s h
        simpa using this
    · exact transferPhase_swapSubmit_mem plan env _ s h
  · exact transferPhase_swapSubmit_mem plan env _ s h

/-- Every swap submission the executor's try body emits carries the
slippage-buffered bound computed from the execution-time re-quote. -/
theorem swapPhase_swapSubmit_bound (plan : TreasuryPlan) (env : ExecEnv)
    (s : SwapSubmission) (h : Effect.swapSubmit s ∈ (swapPhase plan env).1) :
    s.amountInMaximum =
      maxAmountInCalc
        (env.swapQuote (toFixedUnits (fsub (rd plan.deficit) (rd plan.sepoliaUsdcBalance))))
        SLIPPAGE_BPS := by
  unfold swapPhase at h
  split at h
  · rcases hsc : env.swapCall with m | _ | sid <;> rw [hsc] at h <;> dsimp only at h
    · simp at h
      subst h
      rfl
    · simp at h
      subst h
      rfl
    · rcases hsp : env.swapPoll with e | hh <;> rw [hsp] at h <;> dsimp only at h
      · simp at h
        subst h
        rfl
      · have h2 := bridgePhase_swapSubmit_mem plan env _ s h
        simp at h2
        subst h2
        rfl
  · have h2 := bridgePhase_swapSubmit_mem plan env _ s h
    simp at h2

/-- The transfer phase reads only the listed plan fields. -/
theorem transferPhase_congr (p q : TreasuryPlan) (env : ExecEnv) (acc : List Effect)
    (h1 : p.steps = q.steps) (h2 : p.invoiceCurrency = q.invoiceCurrency)
    (h3 : p.invoiceAmount = q.invoiceAmount) (h4 : p.recipientAddress = q.recipientAddress) :
    transferPhase p env acc = transferPhase q env acc := by
  unfold transferPhase
  rw [h1, h2, h3, h4]

/-- The bridge phase reads only the listed plan fields. -/
theorem bridgePhase_congr (p q : TreasuryPlan) (env : ExecEnv) (acc : List Effect)
    (h1 : p.steps = q.steps) (h2 : p.invoiceCurrency = q.invoiceCurrency)
    (h3 : p.invoiceAmount = q.invoiceAmount) (h4 : p.recipientAddress = q.recipientAddress)
    (h5 : p.bridgeAmount = q.bridgeAmount) (h6 : p.bridgeNeeded = q.bridgeNeeded) :
    bridgePhase p env acc = bridgePhase q env acc := by
  have ht : ∀ a, transferPhase p env a = transferPhase q env a := fun a =>
    transferPhase_congr p q env a h1 h2 h3 h4
  unfold bridgePhase
  rw [h1, h5, h6]
  simp only [ht]

/-- The swap phase reads only the listed plan fields — in particular not
`swapQuoteEth`. -/
theorem swapPhase_congr (p q : TreasuryPlan) (env : ExecEnv)
    (h1 : p.steps = q.steps) (h2 : p.invoiceCurrency = q.invoiceCurrency)
    (h3 : p.invoiceAmount = q.invoiceAmount) (h4 : p.recipientAddress = q.recipientAddress)
    (h5 : p.bridgeAmount = q.bridgeAmount) (h6 : p.bridgeNeeded = q.bridgeNeeded)
    (h7 : p.swapNeeded = q.swapNeeded) (h8 : p.deficit = q.deficit)
    (h9 : p.sepoliaUsdcBalance = q.sepoliaUsdcBalance) :
    swapPhase p env = swapPhase q env := by
  have hb : ∀ a, bridgePhase p env a = bridgePhase q env a := fun a =>
    bridgePhase_congr p q env a h1 h2 h3 h4 h5 h6
  unfold swapPhase
  rw [h1, h7, h8, h9]
  simp only [hb]

/-- Claim C3: the executor's observable behaviour (effects and result) is
independent of the plan's planning-time `swapQuoteEth` field — varying it
alone never changes the submitted transaction — and every swap submission's
`amountInMaximum` is the truncated `executionQuote * (10000 + slippageBps) /
10000` bound derived from the quoter result obtained during execution. -/
theorem executeTreasuryPlan_swap_bound_from_execution_quote (plan : TreasuryPlan)
    (env : ExecEnv) (v : Option PRat) :
    (executeTreasuryPlan { plan with swapQuoteEth := v } env).2 =
      (executeTreasuryPlan plan env).2 ∧
    (∀ s : SwapSubmission, Effect.swapSubmit s ∈ (executeTreasuryPlan plan env).2.1 →
      s.amountInMaximum =
        maxAmountInCalc
          (env.swapQuote (toFixedUnits (fsub (rd plan.deficit) (rd plan.sepoliaUsdcBalance))))
          SLIPPAGE_BPS) := by
  constructor
  · have hsw : swapPhase { plan with swapQuoteEth := v } env = swapPhase plan env :=
      swapPhase_congr _ plan env (by cases plan; rfl) (by cases plan; rfl)
        (by cases plan; rfl) (by cases plan; rfl) (by cases plan; rfl) (by cases plan; rfl)
        (by cases plan; rfl) (by cases plan; rfl) (by cases plan; rfl)
    have hst : TreasuryPlan.steps { plan with swapQuoteEth := v } = plan.steps := by
      cases plan
      rfl
    unfold executeTreasuryPlan
    rw [hsw, hst]
    rcases hsp : swapPhase plan env with ⟨effs, err⟩
    cases err <;> rfl
  · intro s hs
    apply swapPhase_swapSubmit_bound plan env s
    unfold executeTreasuryPlan at hs
    rcases hsp : swapPhase plan env with ⟨effs, err⟩
    rw [hsp] at hs
    cases err
    · dsimp only at hs ⊢
      exact hs
    · dsimp only at hs ⊢
      simpa using hs

/-- Witness for C3: the Scenario B plan executed against the all-success
environment; perturbing `swapQuoteEth` leaves the behaviour unchanged, and
the concrete submission in that run carries the bound derived from the
execution-time quote. -/
theorem executeTreasuryPlan_swap_bound_from_execution_quote_witness :
    (executeTreasuryPlan { scBPlan with swapQuoteEth := some ⟨1, 1⟩ } okExecEnv).2 =
      (executeTreasuryPlan scBPlan okExecEnv).2 ∧
    ({ contractAddress := UNIVERSAL_ROUTER
       amountOut := 20010000
       amountInMaximum := 10500000000000000
       settleAmount := 10500000000000000
       takeMin := 0
       deadline := 1700003600
       value := 10500000000000000 } : SwapSubmission).amountInMaximum =
      maxAmountInCalc
        (okExecEnv.swapQuote
          (toFixedUnits (fsub (rd scBPlan.deficit) (rd scBPlan.sepoliaUsdcBalance))))
        SLIPPAGE_BPS :=
  ⟨(executeTreasuryPlan_swap_bound_from_execution_quote scBPlan okExecEnv (some ⟨1, 1⟩)).1,
   (executeTreasuryPlan_swap_bound_from_execution_quote scBPlan okExecEnv (some ⟨1, 1⟩)).2 _
     (by decide)⟩
